import Mathlib

/-!
Verification development for the rn_tars RFID bridge.

The embedding models the three layers of the bridge:
* the native adapter (`ChainwayRfidModule.java`): each `@ReactMethod` is a
  function from the reader handle (`Option Unit`, null vs initialized) and an
  oracle describing what each vendor-SDK call would do (`HwBehavior`) to a
  trace of primitive steps (`List Step`) recording hardware calls, event
  emissions, and the final promise settlement;
* the key-event hook (`MainActivity.kt`): trigger key press/release emission;
* the TypeScript client facade (`ChainwayRFID.ts`): module-load guard and
  `setPower` range validation.
A small transition system (`Sys`/`Act`/`runSys`) combines these for the
temporal claims about event delivery.
-/

/-- A fault thrown by a native call: either the vendor SDK's
`ConfigurationException` or any other Java exception, carrying a message. -/
inductive Fault where
  | configuration (message : String)
  | other (message : String)
deriving DecidableEq, Repr

/-- The message carried by a fault (`e.getMessage()`). -/
def Fault.msg : Fault → String
  | .configuration m => m
  | .other m => m

/-- Outcome of a single vendor-SDK call: a returned value or a thrown fault. -/
inductive HwResult (α : Type) where
  | ok (a : α)
  | throw (f : Fault)
deriving DecidableEq, Repr

/-- Whether a hardware call outcome is a thrown fault. -/
def HwResult.isThrow {α : Type} : HwResult α → Bool
  | .ok _ => false
  | .throw _ => true

/-- The vendor SDK's `UHFTAGInfo`: every field getter may return null. -/
structure UHFTAGInfo where
  epc : Option String
  tid : Option String
  user : Option String
  rssi : Option String
  count : Int
deriving DecidableEq, Repr

/-- A React Native tag payload (`WritableMap`), as a key/value list. -/
abbrev TagPayload := List (String × String)

/-- `createTagMap` (ChainwayRfidModule.java:447-459): builds the payload,
replacing each null getter result by the empty string; on a null `tagInfo`
the map stays empty. -/
def createTagMap (tagInfo : Option UHFTAGInfo) : TagPayload :=
  match tagInfo with
  | none => []
  | some ti =>
      [("epc", ti.epc.getD ""),
       ("tid", ti.tid.getD ""),
       ("user", ti.user.getD ""),
       ("rssi", ti.rssi.getD ""),
       ("count", toString ti.count)]

/-- Events emitted through `RCTDeviceEventEmitter`: the three RFID events of
`ChainwayRfidModule` and the two trigger events of `MainActivity`. -/
inductive Event where
  | tagRead (payload : TagPayload)
  | inventoryStart
  | inventoryStop
  | triggerPress
  | triggerRelease
deriving DecidableEq, Repr

/-- A value resolved through a React Native promise. -/
inductive RNValue where
  | bool (b : Bool)
  | str (v : String)
  | int (n : Int)
  | map (m : TagPayload)
deriving DecidableEq, Repr

/-- An argument passed to a vendor-SDK call. -/
inductive HwArg where
  | i (n : Int)
  | s (v : String)
deriving DecidableEq, Repr

/-- One primitive step of an adapter operation. -/
inductive Step where
  | hwCall (callee : String) (callArgs : List HwArg)
  | registerCallback
  | emit (e : Event)
  | resolveStep (v : RNValue)
  | rejectStep (code : String) (message : String)
  | uncaughtStep (f : Fault)
deriving DecidableEq, Repr

/-- Whether a step interacts with the hardware SDK. -/
def Step.isHwCall : Step → Bool
  | .hwCall _ _ => true
  | .registerCallback => true
  | _ => false

/-- Whether a step is an uncaught fault propagating out of the bridge. -/
def Step.isUncaught : Step → Bool
  | .uncaughtStep _ => true
  | _ => false

/-- The events emitted along a trace, in order. -/
def eventsOf (t : List Step) : List Event :=
  t.filterMap (fun s => match s with | .emit e => some e | _ => none)

/-- Whether a trace registered the inventory callback. -/
def hasRegister (t : List Step) : Bool :=
  t.any (fun s => match s with | .registerCallback => true | _ => false)

/-- Whether a trace ends by resolving its promise. -/
def traceResolved (t : List Step) : Bool :=
  match t.getLast? with
  | some (.resolveStep _) => true
  | _ => false

/-- Oracle for the vendor SDK: what each call would return (or throw) if the
adapter performed it, plus the behavior of `RCTDeviceEventEmitter.emit`. -/
structure HwBehavior where
  getInstanceRes : HwResult Unit
  initRes : HwResult Bool
  freeRes : HwResult Bool
  getVersionRes : HwResult (Option String)
  setPowerRes : HwResult Bool
  getPowerRes : HwResult Int
  setFrequencyModeRes : HwResult Bool
  getFrequencyModeRes : HwResult Int
  setInventoryCallbackRes : HwResult Unit
  startInventoryTagRes : HwResult Bool
  stopInventoryRes : HwResult Bool
  inventorySingleTagRes : HwResult (Option UHFTAGInfo)
  readDataRes : HwResult (Option String)
  writeDataRes : HwResult Bool
  writeDataToEpcRes : HwResult Bool
  setFilterRes : HwResult Bool
  lockMemRes : HwResult Bool
  killTagRes : HwResult Bool
  isInventoryingRes : HwResult Bool
  setEPCModeRes : HwResult Bool
  setEPCAndTIDModeRes : HwResult Bool
  emitRes : HwResult Unit
deriving DecidableEq, Repr

/-- Arguments supplied by the JavaScript caller to the `@ReactMethod`s. -/
structure OpArgs where
  power : Int
  mode : Int
  accessPwd : String
  bank : Int
  ptr : Int
  cnt : Int
  data : String
  epcData : String
  lockCode : String
  killPwd : String
deriving DecidableEq, Repr

/-- The `NOT_INITIALIZED` rejection every guarded operation performs when
`rfidReader == null`. -/
def notInitializedReject : Step :=
  Step.rejectStep "NOT_INITIALIZED" "RFID reader not initialized"

/-- `free` (ChainwayRfidModule.java:69-81). -/
def freeTrace (reader : Option Unit) (hw : HwBehavior) : List Step :=
  match reader with
  | none => [notInitializedReject]
  | some _ =>
      Step.hwCall "free" [] ::
      match hw.freeRes with
      | .ok b => [Step.resolveStep (.bool b)]
      | .throw f => [Step.rejectStep "FREE_ERROR" ("Error freeing RFID reader: " ++ f.msg)]

/-- `getVersion` (ChainwayRfidModule.java:86-103). -/
def getVersionTrace (reader : Option Unit) (hw : HwBehavior) : List Step :=
  match reader with
  | none => [notInitializedReject]
  | some _ =>
      Step.hwCall "getVersion" [] ::
      match hw.getVersionRes with
      | .ok (some v) => [Step.resolveStep (.str v)]
      | .ok none => [Step.rejectStep "VERSION_ERROR" "Failed to get version"]
      | .throw f => [Step.rejectStep "VERSION_ERROR" ("Error getting version: " ++ f.msg)]

/-- `setPower` (ChainwayRfidModule.java:108-121). -/
def setPowerTrace (args : OpArgs) (reader : Option Unit) (hw : HwBehavior) : List Step :=
  match reader with
  | none => [notInitializedReject]
  | some _ =>
      Step.hwCall "setPower" [.i args.power] ::
      match hw.setPowerRes with
      | .ok b => [Step.resolveStep (.bool b)]
      | .throw f => [Step.rejectStep "POWER_ERROR" ("Error setting power: " ++ f.msg)]

/-- `getPower` (ChainwayRfidModule.java:126-139). -/
def getPowerTrace (reader : Option Unit) (hw : HwBehavior) : List Step :=
  match reader with
  | none => [notInitializedReject]
  | some _ =>
      Step.hwCall "getPower" [] ::
      match hw.getPowerRes with
      | .ok n => [Step.resolveStep (.int n)]
      | .throw f => [Step.rejectStep "POWER_ERROR" ("Error getting power: " ++ f.msg)]

/-- `setFrequencyMode` (ChainwayRfidModule.java:149-162). -/
def setFrequencyModeTrace (args : OpArgs) (reader : Option Unit) (hw : HwBehavior) : List Step :=
  match reader with
  | none => [notInitializedReject]
  | some _ =>
      Step.hwCall "setFrequencyMode" [.i args.mode] ::
      match hw.setFrequencyModeRes with
      | .ok b => [Step.resolveStep (.bool b)]
      | .throw f => [Step.rejectStep "FREQUENCY_ERROR" ("Error setting frequency: " ++ f.msg)]

/-- `getFrequencyMode` (ChainwayRfidModule.java:167-180). -/
def getFrequencyModeTrace (reader : Option Unit) (hw : HwBehavior) : List Step :=
  match reader with
  | none => [notInitializedReject]
  | some _ =>
      Step.hwCall "getFrequencyMode" [] ::
      match hw.getFrequencyModeRes with
      | .ok n => [Step.resolveStep (.int n)]
      | .throw f => [Step.rejectStep "FREQUENCY_ERROR" ("Error getting frequency: " ++ f.msg)]

/-- `startInventory` (ChainwayRfidModule.java:185-212): registers the
inventory callback, starts the inventory, and on a true result emits the
inventory-start event before resolving; any thrown fault is caught and
surfaced as `START_ERROR`. -/
def startInventoryTrace (reader : Option Unit) (hw : HwBehavior) : List Step :=
  match reader with
  | none => [notInitializedReject]
  | some _ =>
      match hw.setInventoryCallbackRes with
      | .throw f => [Step.rejectStep "START_ERROR" ("Error starting inventory: " ++ f.msg)]
      | .ok _ =>
          Step.registerCallback ::
          Step.hwCall "startInventoryTag" [] ::
          match hw.startInventoryTagRes with
          | .ok true =>
              match hw.emitRes with
              | .ok _ => [Step.emit Event.inventoryStart, Step.resolveStep (.bool true)]
              | .throw f => [Step.rejectStep "START_ERROR" ("Error starting inventory: " ++ f.msg)]
          | .ok false => [Step.rejectStep "START_ERROR" "Failed to start inventory"]
          | .throw f => [Step.rejectStep "START_ERROR" ("Error starting inventory: " ++ f.msg)]

/-- `stopInventory` (ChainwayRfidModule.java:217-236). -/
def stopInventoryTrace (reader : Option Unit) (hw : HwBehavior) : List Step :=
  match reader with
  | none => [notInitializedReject]
  | some _ =>
      Step.hwCall "stopInventory" [] ::
      match hw.stopInventoryRes with
      | .ok true =>
          match hw.emitRes with
          | .ok _ => [Step.emit Event.inventoryStop, Step.resolveStep (.bool true)]
          | .throw f => [Step.rejectStep "STOP_ERROR" ("Error stopping inventory: " ++ f.msg)]
      | .ok false => [Step.rejectStep "STOP_ERROR" "Failed to stop inventory"]
      | .throw f => [Step.rejectStep "STOP_ERROR" ("Error stopping inventory: " ++ f.msg)]

/-- `inventorySingleTag` (ChainwayRfidModule.java:241-260). -/
def inventorySingleTagTrace (reader : Option Unit) (hw : HwBehavior) : List Step :=
  match reader with
  | none => [notInitializedReject]
  | some _ =>
      Step.hwCall "inventorySingleTag" [] ::
      match hw.inventorySingleTagRes with
      | .ok (some ti) => [Step.resolveStep (.map (createTagMap (some ti)))]
      | .ok none => [Step.rejectStep "NO_TAG" "No tag found"]
      | .throw f => [Step.rejectStep "READ_ERROR" ("Error reading tag: " ++ f.msg)]

/-- `readData` (ChainwayRfidModule.java:269-287). -/
def readDataTrace (args : OpArgs) (reader : Option Unit) (hw : HwBehavior) : List Step :=
  match reader with
  | none => [notInitializedReject]
  | some _ =>
      Step.hwCall "readData" [.s args.accessPwd, .i args.bank, .i args.ptr, .i args.cnt] ::
      match hw.readDataRes with
      | .ok (some d) => [Step.resolveStep (.str d)]
      | .ok none => [Step.rejectStep "READ_ERROR" "Failed to read data from tag"]
      | .throw f => [Step.rejectStep "READ_ERROR" ("Error reading data: " ++ f.msg)]

/-- `writeData` (ChainwayRfidModule.java:297-310). -/
def writeDataTrace (args : OpArgs) (reader : Option Unit) (hw : HwBehavior) : List Step :=
  match reader with
  | none => [notInitializedReject]
  | some _ =>
      Step.hwCall "writeData"
        [.s args.accessPwd, .i args.bank, .i args.ptr, .i args.cnt, .s args.data] ::
      match hw.writeDataRes with
      | .ok b => [Step.resolveStep (.bool b)]
      | .throw f => [Step.rejectStep "WRITE_ERROR" ("Error writing data: " ++ f.msg)]

/-- `writeEPC` (ChainwayRfidModule.java:317-330), forwarding to the SDK's
`writeDataToEpc`. -/
def writeEPCTrace (args : OpArgs) (reader : Option Unit) (hw : HwBehavior) : List Step :=
  match reader with
  | none => [notInitializedReject]
  | some _ =>
      Step.hwCall "writeDataToEpc" [.s args.accessPwd, .s args.epcData] ::
      match hw.writeDataToEpcRes with
      | .ok b => [Step.resolveStep (.bool b)]
      | .throw f => [Step.rejectStep "WRITE_ERROR" ("Error writing EPC: " ++ f.msg)]

/-- `setFilter` (ChainwayRfidModule.java:339-352). -/
def setFilterTrace (args : OpArgs) (reader : Option Unit) (hw : HwBehavior) : List Step :=
  match reader with
  | none => [notInitializedReject]
  | some _ =>
      Step.hwCall "setFilter" [.i args.bank, .i args.ptr, .i args.cnt, .s args.data] ::
      match hw.setFilterRes with
      | .ok b => [Step.resolveStep (.bool b)]
      | .throw f => [Step.rejectStep "FILTER_ERROR" ("Error setting filter: " ++ f.msg)]

/-- `lockTag` (ChainwayRfidModule.java:359-372), forwarding to `lockMem`. -/
def lockTagTrace (args : OpArgs) (reader : Option Unit) (hw : HwBehavior) : List Step :=
  match reader with
  | none => [notInitializedReject]
  | some _ =>
      Step.hwCall "lockMem" [.s args.accessPwd, .s args.lockCode] ::
      match hw.lockMemRes with
      | .ok b => [Step.resolveStep (.bool b)]
      | .throw f => [Step.rejectStep "LOCK_ERROR" ("Error locking tag: " ++ f.msg)]

/-- `killTag` (ChainwayRfidModule.java:378-391). -/
def killTagTrace (args : OpArgs) (reader : Option Unit) (hw : HwBehavior) : List Step :=
  match reader with
  | none => [notInitializedReject]
  | some _ =>
      Step.hwCall "killTag" [.s args.killPwd] ::
      match hw.killTagRes with
      | .ok b => [Step.resolveStep (.bool b)]
      | .throw f => [Step.rejectStep "KILL_ERROR" ("Error killing tag: " ++ f.msg)]

/-- `isInventorying` (ChainwayRfidModule.java:396-409). -/
def isInventoryingTrace (reader : Option Unit) (hw : HwBehavior) : List Step :=
  match reader with
  | none => [notInitializedReject]
  | some _ =>
      Step.hwCall "isInventorying" [] ::
      match hw.isInventoryingRes with
      | .ok b => [Step.resolveStep (.bool b)]
      | .throw f => [Step.rejectStep "STATUS_ERROR" ("Error checking inventory status: " ++ f.msg)]

/-- `setEPCMode` (ChainwayRfidModule.java:415-428). -/
def setEPCModeTrace (reader : Option Unit) (hw : HwBehavior) : List Step :=
  match reader with
  | none => [notInitializedReject]
  | some _ =>
      Step.hwCall "setEPCMode" [] ::
      match hw.setEPCModeRes with
      | .ok b => [Step.resolveStep (.bool b)]
      | .throw f => [Step.rejectStep "MODE_ERROR" ("Error setting EPC mode: " ++ f.msg)]

/-- `setEPCAndTIDMode` (ChainwayRfidModule.java:430-443). -/
def setEPCAndTIDModeTrace (reader : Option Unit) (hw : HwBehavior) : List Step :=
  match reader with
  | none => [notInitializedReject]
  | some _ =>
      Step.hwCall "setEPCAndTIDMode" [] ::
      match hw.setEPCAndTIDModeRes with
      | .ok b => [Step.resolveStep (.bool b)]
      | .throw f => [Step.rejectStep "MODE_ERROR" ("Error setting EPC+TID mode: " ++ f.msg)]

/-- The capability operations of the adapter other than `init`. -/
inductive OpName where
  | free
  | getVersion
  | setPower
  | getPower
  | setFrequencyMode
  | getFrequencyMode
  | startInventory
  | stopInventory
  | inventorySingleTag
  | readData
  | writeData
  | writeEPC
  | setFilter
  | lockTag
  | killTag
  | isInventorying
  | setEPCMode
  | setEPCAndTIDMode
deriving DecidableEq, Repr

/-- Dispatch a named capability operation to its trace semantics. -/
def runOp (op : OpName) (args : OpArgs) (reader : Option Unit) (hw : HwBehavior) : List Step :=
  match op with
  | .free => freeTrace reader hw
  | .getVersion => getVersionTrace reader hw
  | .setPower => setPowerTrace args reader hw
  | .getPower => getPowerTrace reader hw
  | .setFrequencyMode => setFrequencyModeTrace args reader hw
  | .getFrequencyMode => getFrequencyModeTrace reader hw
  | .startInventory => startInventoryTrace reader hw
  | .stopInventory => stopInventoryTrace reader hw
  | .inventorySingleTag => inventorySingleTagTrace reader hw
  | .readData => readDataTrace args reader hw
  | .writeData => writeDataTrace args reader hw
  | .writeEPC => writeEPCTrace args reader hw
  | .setFilter => setFilterTrace args reader hw
  | .lockTag => lockTagTrace args reader hw
  | .killTag => killTagTrace args reader hw
  | .isInventorying => isInventoryingTrace reader hw
  | .setEPCMode => setEPCModeTrace reader hw
  | .setEPCAndTIDMode => setEPCAndTIDModeTrace reader hw

/-- The error code `init` uses for a caught fault: `ConfigurationException`
maps to `CONFIG_ERROR`, any other exception to `INIT_ERROR`
(ChainwayRfidModule.java:59-63). -/
def initFaultCode : Fault → String
  | .configuration _ => "CONFIG_ERROR"
  | .other _ => "INIT_ERROR"

/-- The message `init` attaches to a caught fault. -/
def initFaultMsg : Fault → String
  | .configuration m => "Configuration error: " ++ m
  | .other m => "Error initializing RFID reader: " ++ m

/-- `init` (ChainwayRfidModule.java:48-64): assigns `rfidReader` from
`RFIDWithUHFUART.getInstance()` (so the handle becomes non-null even when the
subsequent `init(context)` returns false or throws), then resolves true on a
true result, rejects `INIT_FAILED` on false, and translates caught faults.
Returns the updated handle together with the trace. -/
def initRun (reader : Option Unit) (hw : HwBehavior) : Option Unit × List Step :=
  match hw.getInstanceRes with
  | .throw f =>
      (reader, [Step.hwCall "getInstance" [], Step.rejectStep (initFaultCode f) (initFaultMsg f)])
  | .ok _ =>
      (some (),
       Step.hwCall "getInstance" [] :: Step.hwCall "init" [] ::
       match hw.initRes with
       | .ok true => [Step.resolveStep (.bool true)]
       | .ok false => [Step.rejectStep "INIT_FAILED" "Failed to initialize RFID reader"]
       | .throw f => [Step.rejectStep (initFaultCode f) (initFaultMsg f)])

/-- The inventory callback registered by `startInventory`
(ChainwayRfidModule.java:194-199): it calls `sendTagReadEvent`, which builds
the payload and emits it; no try/catch surrounds this path, so a fault thrown
by the emitter propagates uncaught out of the callback. -/
def inventoryCallbackRun (tagInfo : Option UHFTAGInfo) (emitRes : HwResult Unit) : List Step :=
  match emitRes with
  | .ok _ => [Step.emit (Event.tagRead (createTagMap tagInfo))]
  | .throw f => [Step.uncaughtStep f]

/-- Bridge-level state: the adapter's reader handle and whether the SDK
inventory callback has been registered. -/
structure Sys where
  reader : Option Unit
  callbackSet : Bool
deriving DecidableEq, Repr

/-- The initial state: no handle, no callback registered. -/
def Sys0 : Sys := { reader := none, callbackSet := false }

/-- The Chainway C5 trigger key codes handled by `MainActivity.kt:29-43`. -/
def isTriggerKey (keyCode : Int) : Bool :=
  keyCode == 280 || keyCode == 293 || keyCode == 294

/-- An external stimulus to the bridge: a JavaScript call into the adapter, a
hardware key event (with or without a live React context), or the vendor SDK
invoking the registered inventory callback with a tag. -/
inductive Act where
  | reactCall (op : OpName) (args : OpArgs) (hw : HwBehavior)
  | reactInit (hw : HwBehavior)
  | keyDown (keyCode : Int) (ctxPresent : Bool)
  | keyUp (keyCode : Int) (ctxPresent : Bool)
  | sdkDeliverTag (tagInfo : Option UHFTAGInfo) (emitRes : HwResult Unit)
deriving DecidableEq, Repr

/-- One transition of the bridge: the next state and the events delivered to
listeners during the step. Key events are delivered only when the key code is
a trigger key and a React context exists (`MainActivity.sendTriggerEvent`
drops them silently otherwise); the SDK only invokes the inventory callback
once it has been registered. -/
def stepSys (s : Sys) (a : Act) : Sys × List Event :=
  match a with
  | .reactCall op args hw =>
      let t := runOp op args s.reader hw
      ({ s with callbackSet := s.callbackSet || hasRegister t }, eventsOf t)
  | .reactInit hw =>
      let (r, t) := initRun s.reader hw
      ({ s with reader := r }, eventsOf t)
  | .keyDown code ctx =>
      if isTriggerKey code && ctx then (s, [Event.triggerPress]) else (s, [])
  | .keyUp code ctx =>
      if isTriggerKey code && ctx then (s, [Event.triggerRelease]) else (s, [])
  | .sdkDeliverTag tagInfo emitRes =>
      if s.callbackSet then (s, eventsOf (inventoryCallbackRun tagInfo emitRes)) else (s, [])

/-- Run a sequence of stimuli from a state, concatenating delivered events. -/
def runSys (s : Sys) (acts : List Act) : Sys × List Event :=
  match acts with
  | [] => (s, [])
  | a :: rest =>
      let (s', evs) := stepSys s a
      let (s'', evs') := runSys s' rest
      (s'', evs ++ evs')

/-- Whether an event comes from the RFID module (as opposed to the trigger
key hook). -/
def Event.isRfid : Event → Bool
  | .tagRead _ => true
  | .inventoryStart => true
  | .inventoryStop => true
  | .triggerPress => false
  | .triggerRelease => false

/-- The RFID-module events among a delivered stream. -/
def rfidEvents (evs : List Event) : List Event := evs.filter Event.isRfid

/-- Result of a call into the TypeScript facade's `setPower`: a synchronous
validation rejection, or a forward of the value to the native adapter. -/
inductive FacadeCall where
  | rejected (message : String)
  | forwardedSetPower (power : ℚ)
deriving DecidableEq, Repr

/-- `ChainwayRFID.setPower` (ChainwayRFID.ts:163-168): rejects out-of-range
values without touching the native module, otherwise forwards unchanged. -/
def facadeSetPower (power : ℚ) : FacadeCall :=
  if power < 0 ∨ power > 30 then FacadeCall.rejected "Power must be between 0 and 30"
  else FacadeCall.forwardedSetPower power

/-- The native module object the facade destructures from `NativeModules`,
carrying the constants published by `getConstants`
(ChainwayRfidModule.java:473-497). -/
structure NativeModuleRef where
  constants : List (String × Int)
deriving DecidableEq, Repr

/-- The module-load guard of `ChainwayRFID.ts:74-81`: when the native module
is absent the import throws synchronously with this message; otherwise the
module object is bound and the facade is usable. -/
def loadChainwayRFID (chainwayRfid : Option NativeModuleRef) : Except String NativeModuleRef :=
  match chainwayRfid with
  | none => Except.error "ChainwayRfid native module is not available"
  | some m => Except.ok m

/-- The frequency-region codes published by `getConstants`
(ChainwayRfidModule.java:484-489): CHINA_840, CHINA_920, EUROPE, USA,
KOREA (0x16), JAPAN (0x32). -/
def freqModeValues : List Int := [1, 2, 4, 8, 22, 50]

/-- Modelled from the spec: the vendor SDK `RFIDWithUHFUART` (absent from the
sources) owns the frequency-mode state; per spec section 3 it is the source of
truth and `get*` calls round-trip to it. -/
structure VendorFreqState where
  freqMode : Int
deriving DecidableEq, Repr

/-- Modelled from the spec: the SDK's `setFrequencyMode` stores the region
code and reports success. -/
def hwSetFrequencyMode (s : VendorFreqState) (mode : Int) : VendorFreqState × Bool :=
  ({ freqMode := mode }, true)

/-- Modelled from the spec: the SDK's `getFrequencyMode` returns the stored
region code. -/
def hwGetFrequencyMode (s : VendorFreqState) : Int := s.freqMode

/-- `setFrequencyMode` run against the spec-modelled vendor state: the adapter
forwards the mode argument unchanged (ChainwayRfidModule.java:157) and
resolves the SDK's boolean. -/
def setFrequencyModeRun (reader : Option Unit) (s : VendorFreqState) (mode : Int) :
    VendorFreqState × List Step :=
  match reader with
  | none => (s, [notInitializedReject])
  | some _ =>
      let (s', b) := hwSetFrequencyMode s mode
      (s', [Step.hwCall "setFrequencyMode" [.i mode], Step.resolveStep (.bool b)])

/-- `getFrequencyMode` run against the spec-modelled vendor state: the adapter
resolves the SDK's value unchanged (ChainwayRfidModule.java:175-176). -/
def getFrequencyModeRun (reader : Option Unit) (s : VendorFreqState) :
    VendorFreqState × List Step :=
  match reader with
  | none => (s, [notInitializedReject])
  | some _ =>
      (s, [Step.hwCall "getFrequencyMode" [], Step.resolveStep (.int (hwGetFrequencyMode s))])

/-- The error codes of the bridge's taxonomy: not-initialized, the init
codes, the per-operation failure codes, and `NO_TAG`. -/
def taxonomyCodes : List String :=
  ["NOT_INITIALIZED", "INIT_FAILED", "CONFIG_ERROR", "INIT_ERROR", "FREE_ERROR",
   "VERSION_ERROR", "POWER_ERROR", "FREQUENCY_ERROR", "START_ERROR", "STOP_ERROR",
   "NO_TAG", "READ_ERROR", "WRITE_ERROR", "FILTER_ERROR", "LOCK_ERROR", "KILL_ERROR",
   "STATUS_ERROR", "MODE_ERROR"]

/-- A completed adapter trace that never lets a fault escape: no uncaught
step, and it settles by resolving or by rejecting with a taxonomy code. -/
def traceCaught (t : List Step) : Bool :=
  t.all (fun s => !s.isUncaught) &&
  (match t.getLast? with
   | some (.resolveStep _) => true
   | some (.rejectStep c _) => taxonomyCodes.contains c
   | _ => false)

/-- A hardware behavior where every call succeeds with a benign value. -/
def hwAllOk : HwBehavior :=
  { getInstanceRes := .ok (), initRes := .ok true, freeRes := .ok true,
    getVersionRes := .ok (some "V5.2"), setPowerRes := .ok true, getPowerRes := .ok 26,
    setFrequencyModeRes := .ok true, getFrequencyModeRes := .ok 8,
    setInventoryCallbackRes := .ok (), startInventoryTagRes := .ok true,
    stopInventoryRes := .ok true, inventorySingleTagRes := .ok (some
      { epc := some "E200001", tid := some "T1", user := some "U1",
        rssi := some "-55.2", count := 1 }),
    readDataRes := .ok (some "ABCD"), writeDataRes := .ok true,
    writeDataToEpcRes := .ok true, setFilterRes := .ok true, lockMemRes := .ok true,
    killTagRes := .ok true, isInventoryingRes := .ok true, setEPCModeRes := .ok true,
    setEPCAndTIDModeRes := .ok true, emitRes := .ok () }

/-- A hardware behavior where every call returns its failure sentinel without
throwing: false for boolean calls, null for value calls. -/
def hwAllFalse : HwBehavior :=
  { getInstanceRes := .ok (), initRes := .ok false, freeRes := .ok false,
    getVersionRes := .ok none, setPowerRes := .ok false, getPowerRes := .ok 0,
    setFrequencyModeRes := .ok false, getFrequencyModeRes := .ok 0,
    setInventoryCallbackRes := .ok (), startInventoryTagRes := .ok false,
    stopInventoryRes := .ok false, inventorySingleTagRes := .ok none,
    readDataRes := .ok none, writeDataRes := .ok false,
    writeDataToEpcRes := .ok false, setFilterRes := .ok false, lockMemRes := .ok false,
    killTagRes := .ok false, isInventoryingRes := .ok false, setEPCModeRes := .ok false,
    setEPCAndTIDModeRes := .ok false, emitRes := .ok () }

/-- Default arguments for exercising the operations. -/
def argsDefault : OpArgs :=
  { power := 26, mode := 8, accessPwd := "00000000", bank := 1, ptr := 2, cnt := 6,
    data := "ABCD", epcData := "E200", lockCode := "0A82", killPwd := "00000000" }

/-- A tag whose every getter returns null: the SDK imposes no non-emptiness
on the fields it delivers to the callback. -/
def tagAllNull : UHFTAGInfo :=
  { epc := none, tid := none, user := none, rssi := none, count := 1 }

/-- Helper: with a null reader handle, every capability operation's whole
trace is the single `NOT_INITIALIZED` rejection. -/
theorem runOp_none (op : OpName) (args : OpArgs) (hw : HwBehavior) :
    runOp op args none hw = [notInitializedReject] := by
  cases op <;> rfl

/-- Claim C1: every capability operation other than init, invoked while the
reader handle is null, rejects with `NOT_INITIALIZED` and performs no
hardware call: its entire trace is the single rejection step, which is not a
hardware interaction. -/
theorem uninitialized_op_rejects (op : OpName) (args : OpArgs) (hw : HwBehavior) :
    runOp op args none hw
        = [Step.rejectStep "NOT_INITIALIZED" "RFID reader not initialized"] ∧
    (runOp op args none hw).all (fun s => !s.isHwCall) = true := by
  cases op <;> exact ⟨rfl, rfl⟩

/-- Claim C2: the facade's `setPower` rejects every number outside [0, 30]
with the validation error and no forward to the adapter, and forwards every
value in [0, 30] (in particular every integer) unchanged. -/
theorem facade_setPower_validation (p : ℚ) :
    (p < 0 ∨ p > 30 →
       facadeSetPower p = FacadeCall.rejected "Power must be between 0 and 30") ∧
    (0 ≤ p ∧ p ≤ 30 → facadeSetPower p = FacadeCall.forwardedSetPower p) := by
  constructor
  · intro h
    simp only [facadeSetPower, if_pos h]
  · rintro ⟨h0, h30⟩
    have : ¬ (p < 0 ∨ p > 30) := by
      push_neg
      exact ⟨h0, h30⟩
    simp only [facadeSetPower, if_neg this]

/-- Witness for C2 at the concrete inputs 31 (rejected) and 26 (forwarded). -/
theorem facade_setPower_validation_witness :
    facadeSetPower 31 = FacadeCall.rejected "Power must be between 0 and 30" ∧
    facadeSetPower 26 = FacadeCall.forwardedSetPower 26 :=
  ⟨(facade_setPower_validation 31).1 (Or.inr (by norm_num)),
   (facade_setPower_validation 26).2 ⟨by norm_num, by norm_num⟩⟩

/-- Claim C10: when the native `ChainwayRfid` module is absent, module load
throws synchronously with the stated message; when it is present, load
succeeds and binds exactly that module object, so the facade is only usable
when the native module exists. -/
theorem module_load_guard :
    loadChainwayRFID none = Except.error "ChainwayRfid native module is not available" ∧
    ∀ m : NativeModuleRef, loadChainwayRFID (some m) = Except.ok m :=
  ⟨rfl, fun _ => rfl⟩

/-- Counterexample to claim C3 at a concrete input: with an initialized
reader, when the hardware `setPower` call returns the failure sentinel
`false` without throwing, the adapter resolves with `false` instead of
failing with a named error condition. -/
theorem setPower_sentinel_resolves :
    runOp OpName.setPower argsDefault (some ()) hwAllFalse
        = [Step.hwCall "setPower" [HwArg.i 26], Step.resolveStep (RNValue.bool false)] ∧
    traceResolved (runOp OpName.setPower argsDefault (some ()) hwAllFalse) = true :=
  ⟨rfl, rfl⟩

/-- Claim C3 as amended: only the value-returning operations treat the null
sentinel as an error (`VERSION_ERROR`, `NO_TAG`, `READ_ERROR`), and only
`startInventory`/`stopInventory` reject on a false result (`START_ERROR`,
`STOP_ERROR`); every other boolean-returning operation resolves with `false`
when the hardware call returns the failure sentinel without throwing. -/
theorem sentinel_handling_amended (args : OpArgs) (hw : HwBehavior) :
    (hw.getVersionRes = .ok none →
       (runOp .getVersion args (some ()) hw).getLast?
         = some (Step.rejectStep "VERSION_ERROR" "Failed to get version")) ∧
    (hw.inventorySingleTagRes = .ok none →
       (runOp .inventorySingleTag args (some ()) hw).getLast?
         = some (Step.rejectStep "NO_TAG" "No tag found")) ∧
    (hw.readDataRes = .ok none →
       (runOp .readData args (some ()) hw).getLast?
         = some (Step.rejectStep "READ_ERROR" "Failed to read data from tag")) ∧
    (hw.setInventoryCallbackRes = .ok () ∧ hw.startInventoryTagRes = .ok false →
       (runOp .startInventory args (some ()) hw).getLast?
         = some (Step.rejectStep "START_ERROR" "Failed to start inventory")) ∧
    (hw.stopInventoryRes = .ok false →
       (runOp .stopInventory args (some ()) hw).getLast?
         = some (Step.rejectStep "STOP_ERROR" "Failed to stop inventory")) ∧
    (hw.freeRes = .ok false →
       (runOp .free args (some ()) hw).getLast? = some (Step.resolveStep (RNValue.bool false))) ∧
    (hw.setPowerRes = .ok false →
       (runOp .setPower args (some ()) hw).getLast? = some (Step.resolveStep (RNValue.bool false))) ∧
    (hw.setFrequencyModeRes = .ok false →
       (runOp .setFrequencyMode args (some ()) hw).getLast?
         = some (Step.resolveStep (RNValue.bool false))) ∧
    (hw.writeDataRes = .ok false →
       (runOp .writeData args (some ()) hw).getLast? = some (Step.resolveStep (RNValue.bool false))) ∧
    (hw.writeDataToEpcRes = .ok false →
       (runOp .writeEPC args (some ()) hw).getLast? = some (Step.resolveStep (RNValue.bool false))) ∧
    (hw.setFilterRes = .ok false →
       (runOp .setFilter args (some ()) hw).getLast? = some (Step.resolveStep (RNValue.bool false))) ∧
    (hw.lockMemRes = .ok false →
       (runOp .lockTag args (some ()) hw).getLast? = some (Step.resolveStep (RNValue.bool false))) ∧
    (hw.killTagRes = .ok false →
       (runOp .killTag args (some ()) hw).getLast? = some (Step.resolveStep (RNValue.bool false))) ∧
    (hw.isInventoryingRes = .ok false →
       (runOp .isInventorying args (some ()) hw).getLast?
         = some (Step.resolveStep (RNValue.bool false))) ∧
    (hw.setEPCModeRes = .ok false →
       (runOp .setEPCMode args (some ()) hw).getLast? = some (Step.resolveStep (RNValue.bool false))) ∧
    (hw.setEPCAndTIDModeRes = .ok false →
       (runOp .setEPCAndTIDMode args (some ()) hw).getLast?
         = some (Step.resolveStep (RNValue.bool false))) := by
  refine ⟨fun h => ?_, fun h => ?_, fun h => ?_, fun h => ?_, fun h => ?_, fun h => ?_,
    fun h => ?_, fun h => ?_, fun h => ?_, fun h => ?_, fun h => ?_, fun h => ?_,
    fun h => ?_, fun h => ?_, fun h => ?_, fun h => ?_⟩
  case _ => simp [runOp, getVersionTrace, h]
  case _ => simp [runOp, inventorySingleTagTrace, h]
  case _ => simp [runOp, readDataTrace, h]
  case _ => simp [runOp, startInventoryTrace, h.1, h.2]
  case _ => simp [runOp, stopInventoryTrace, h]
  case _ => simp [runOp, freeTrace, h]
  case _ => simp [runOp, setPowerTrace, h]
  case _ => simp [runOp, setFrequencyModeTrace, h]
  case _ => simp [runOp, writeDataTrace, h]
  case _ => simp [runOp, writeEPCTrace, h]
  case _ => simp [runOp, setFilterTrace, h]
  case _ => simp [runOp, lockTagTrace, h]
  case _ => simp [runOp, killTagTrace, h]
  case _ => simp [runOp, isInventoryingTrace, h]
  case _ => simp [runOp, setEPCModeTrace, h]
  case _ => simp [runOp, setEPCAndTIDModeTrace, h]

/-- Witness for the amended C3: all sixteen cases hold at the concrete
behavior `hwAllFalse`, every hypothesis discharged by computation. -/
theorem sentinel_handling_amended_witness :
    (runOp .getVersion argsDefault (some ()) hwAllFalse).getLast?
        = some (Step.rejectStep "VERSION_ERROR" "Failed to get version") ∧
    (runOp .inventorySingleTag argsDefault (some ()) hwAllFalse).getLast?
        = some (Step.rejectStep "NO_TAG" "No tag found") ∧
    (runOp .startInventory argsDefault (some ()) hwAllFalse).getLast?
        = some (Step.rejectStep "START_ERROR" "Failed to start inventory") ∧
    (runOp .free argsDefault (some ()) hwAllFalse).getLast?
        = some (Step.resolveStep (RNValue.bool false)) :=
  ⟨(sentinel_handling_amended argsDefault hwAllFalse).1 rfl,
   (sentinel_handling_amended argsDefault hwAllFalse).2.1 rfl,
   (sentinel_handling_amended argsDefault hwAllFalse).2.2.2.1 ⟨rfl, rfl⟩,
   (sentinel_handling_amended argsDefault hwAllFalse).2.2.2.2.2.1 rfl⟩

/-- Claim C4: whenever `startInventory` resolves, its whole trace is: register
the hardware inventory callback, start the inventory, emit the
inventory-start event exactly once, then resolve — so the registration comes
first and the single emission precedes the resolution; whenever
`stopInventory` resolves, the inventory-stop event is emitted exactly once
before the resolution; and on failure neither operation emits any event. -/
theorem inventory_event_emission (args : OpArgs) (reader : Option Unit) (hw : HwBehavior) :
    (traceResolved (runOp .startInventory args reader hw) = true →
        runOp .startInventory args reader hw
          = [Step.registerCallback, Step.hwCall "startInventoryTag" [],
             Step.emit Event.inventoryStart, Step.resolveStep (RNValue.bool true)]) ∧
    (traceResolved (runOp .startInventory args reader hw) = false →
        eventsOf (runOp .startInventory args reader hw) = []) ∧
    (traceResolved (runOp .stopInventory args reader hw) = true →
        runOp .stopInventory args reader hw
          = [Step.hwCall "stopInventory" [], Step.emit Event.inventoryStop,
             Step.resolveStep (RNValue.bool true)]) ∧
    (traceResolved (runOp .stopInventory args reader hw) = false →
        eventsOf (runOp .stopInventory args reader hw) = []) := by
  rcases reader with _ | u <;>
    rcases h1 : hw.setInventoryCallbackRes with u1 | f1 <;>
    rcases h2 : hw.startInventoryTagRes with (_ | _) | f2 <;>
    rcases h3 : hw.emitRes with u3 | f3 <;>
    rcases h4 : hw.stopInventoryRes with (_ | _) | f4 <;>
    refine ⟨fun h => ?_, fun h => ?_, fun h => ?_, fun h => ?_⟩ <;>
    simp_all [runOp, startInventoryTrace, stopInventoryTrace, traceResolved, eventsOf,
      notInitializedReject]

/-- Witness for C4: at `hwAllOk` both operations resolve with the stated
traces; at `hwAllFalse` both fail and emit nothing. -/
theorem inventory_event_emission_witness :
    runOp .startInventory argsDefault (some ()) hwAllOk
        = [Step.registerCallback, Step.hwCall "startInventoryTag" [],
           Step.emit Event.inventoryStart, Step.resolveStep (RNValue.bool true)] ∧
    eventsOf (runOp .startInventory argsDefault (some ()) hwAllFalse) = [] ∧
    runOp .stopInventory argsDefault (some ()) hwAllOk
        = [Step.hwCall "stopInventory" [], Step.emit Event.inventoryStop,
           Step.resolveStep (RNValue.bool true)] ∧
    eventsOf (runOp .stopInventory argsDefault (some ()) hwAllFalse) = [] :=
  ⟨(inventory_event_emission argsDefault (some ()) hwAllOk).1 rfl,
   (inventory_event_emission argsDefault (some ()) hwAllFalse).2.1 rfl,
   (inventory_event_emission argsDefault (some ()) hwAllOk).2.2.1 rfl,
   (inventory_event_emission argsDefault (some ()) hwAllFalse).2.2.2 rfl⟩

/-- Counterexample to claim C7 at a concrete input: when `getInstance`
succeeds but the SDK's `init` returns false, the adapter rejects with
`INIT_FAILED`, a code outside the claimed set
NOT_INITIALIZED/CONFIG_ERROR/INIT_ERROR. -/
theorem init_failed_code_counterexample :
    (initRun none hwAllFalse).2.getLast?
        = some (Step.rejectStep "INIT_FAILED" "Failed to initialize RFID reader") ∧
    "INIT_FAILED" ∉ (["NOT_INITIALIZED", "CONFIG_ERROR", "INIT_ERROR"] : List String) :=
  ⟨rfl, by decide⟩

/-- Hardware behavior whose `init(context)` throws `ConfigurationException`. -/
def hwInitConfigFault : HwBehavior :=
  { hwAllOk with initRes := .throw (Fault.configuration "uart config missing") }

/-- Hardware behavior whose `init(context)` throws a generic exception. -/
def hwInitOtherFault : HwBehavior :=
  { hwAllOk with initRes := .throw (Fault.other "device busy") }

/-- Claim C7 as amended: `init` either resolves with true or rejects with a
code in {INIT_FAILED, CONFIG_ERROR, INIT_ERROR}; a false SDK result maps to
`INIT_FAILED`, a `ConfigurationException` to `CONFIG_ERROR`, any other thrown
fault to `INIT_ERROR`, and no other code (in particular never
`NOT_INITIALIZED`) is produced. -/
theorem init_error_codes_amended (reader : Option Unit) (hw : HwBehavior) :
    ((initRun reader hw).2.getLast? = some (Step.resolveStep (RNValue.bool true)) ∨
      ∃ c m, (initRun reader hw).2.getLast? = some (Step.rejectStep c m) ∧
        (c = "INIT_FAILED" ∨ c = "CONFIG_ERROR" ∨ c = "INIT_ERROR")) ∧
    (hw.getInstanceRes = .ok () → hw.initRes = .ok true →
        (initRun reader hw).2.getLast? = some (Step.resolveStep (RNValue.bool true))) ∧
    (hw.getInstanceRes = .ok () → hw.initRes = .ok false →
        (initRun reader hw).2.getLast?
          = some (Step.rejectStep "INIT_FAILED" "Failed to initialize RFID reader")) ∧
    (∀ m, hw.getInstanceRes = .ok () → hw.initRes = .throw (Fault.configuration m) →
        (initRun reader hw).2.getLast?
          = some (Step.rejectStep "CONFIG_ERROR" ("Configuration error: " ++ m))) ∧
    (∀ m, hw.getInstanceRes = .ok () → hw.initRes = .throw (Fault.other m) →
        (initRun reader hw).2.getLast?
          = some (Step.rejectStep "INIT_ERROR" ("Error initializing RFID reader: " ++ m))) := by
  refine ⟨?_, fun hg hi => ?_, fun hg hi => ?_, fun m hg hi => ?_, fun m hg hi => ?_⟩
  · rcases hg : hw.getInstanceRes with u | f
    · rcases hi : hw.initRes with (_ | _) | f
      · refine Or.inr ⟨"INIT_FAILED", "Failed to initialize RFID reader", ?_, Or.inl rfl⟩
        simp [initRun, hg, hi]
      · exact Or.inl (by simp [initRun, hg, hi])
      · cases f with
        | configuration m =>
            refine Or.inr ⟨"CONFIG_ERROR", "Configuration error: " ++ m, ?_, Or.inr (Or.inl rfl)⟩
            simp [initRun, hg, hi, initFaultCode, initFaultMsg]
        | other m =>
            refine Or.inr ⟨"INIT_ERROR", "Error initializing RFID reader: " ++ m, ?_,
              Or.inr (Or.inr rfl)⟩
            simp [initRun, hg, hi, initFaultCode, initFaultMsg]
    · cases f with
      | configuration m =>
          refine Or.inr ⟨"CONFIG_ERROR", "Configuration error: " ++ m, ?_, Or.inr (Or.inl rfl)⟩
          simp [initRun, hg, initFaultCode, initFaultMsg]
      | other m =>
          refine Or.inr ⟨"INIT_ERROR", "Error initializing RFID reader: " ++ m, ?_,
            Or.inr (Or.inr rfl)⟩
          simp [initRun, hg, initFaultCode, initFaultMsg]
  · simp [initRun, hg, hi]
  · simp [initRun, hg, hi]
  · simp [initRun, hg, hi, initFaultCode, initFaultMsg]
  · simp [initRun, hg, hi, initFaultCode, initFaultMsg]

/-- Witness for the amended C7 at concrete behaviors: success, false result,
configuration fault, and generic fault. -/
theorem init_error_codes_witness :
    (initRun none hwAllOk).2.getLast? = some (Step.resolveStep (RNValue.bool true)) ∧
    (initRun none hwAllFalse).2.getLast?
        = some (Step.rejectStep "INIT_FAILED" "Failed to initialize RFID reader") ∧
    (initRun none hwInitConfigFault).2.getLast?
        = some (Step.rejectStep "CONFIG_ERROR" "Configuration error: uart config missing") ∧
    (initRun none hwInitOtherFault).2.getLast?
        = some (Step.rejectStep "INIT_ERROR" "Error initializing RFID reader: device busy") :=
  ⟨(init_error_codes_amended none hwAllOk).2.1 rfl rfl,
   (init_error_codes_amended none hwAllFalse).2.2.1 rfl rfl,
   (init_error_codes_amended none hwInitConfigFault).2.2.2.1 "uart config missing" rfl rfl,
   (init_error_codes_amended none hwInitOtherFault).2.2.2.2 "device busy" rfl rfl⟩

/-- Claim C8: for every region code in the published frequency enum, a
successful `setFrequencyMode(X)` followed by `getFrequencyMode()` (both
forwarding unchanged through the adapter, against the spec-modelled vendor
state) resolves with X. -/
theorem freq_roundtrip (x : Int) (s : VendorFreqState) (h : x ∈ freqModeValues) :
    (setFrequencyModeRun (some ()) s x).2.getLast?
        = some (Step.resolveStep (RNValue.bool true)) ∧
    (getFrequencyModeRun (some ()) (setFrequencyModeRun (some ()) s x).1).2.getLast?
        = some (Step.resolveStep (RNValue.int x)) :=
  ⟨rfl, rfl⟩

/-- Witness for C8 at the concrete region code FREQ_USA = 8. -/
theorem freq_roundtrip_witness :
    (8 : Int) ∈ freqModeValues ∧
    (getFrequencyModeRun (some ())
        (setFrequencyModeRun (some ()) { freqMode := 1 } 8).1).2.getLast?
      = some (Step.resolveStep (RNValue.int 8)) :=
  ⟨by decide, (freq_roundtrip 8 { freqMode := 1 } (by decide)).2⟩

/-- Counterexample to claim C6 at a concrete input: in a reachable execution
(init succeeds, `startInventory` succeeds, then the SDK delivers a tag whose
getters all return null) a tag-read event is delivered to listeners whose
`epc` field is the empty string. -/
theorem tagread_empty_epc_delivered :
    (runSys Sys0 [Act.reactInit hwAllOk,
                  Act.reactCall .startInventory argsDefault hwAllOk,
                  Act.sdkDeliverTag (some tagAllNull) (.ok ())]).2
      = [Event.inventoryStart,
         Event.tagRead [("epc", ""), ("tid", ""), ("user", ""), ("rssi", ""), ("count", "1")]] ∧
    ([("epc", ""), ("tid", ""), ("user", ""), ("rssi", ""), ("count", "1")] :
        TagPayload).lookup "epc" = some "" :=
  ⟨rfl, rfl⟩

/-- Claim C6 as amended: every tag-read payload carries the hardware-reported
`epc` verbatim with null mapped to the empty string (so emptiness is possible
and not excluded by the bridge), and the `tid`/`user` fields are empty
strings whenever the SDK omits them (as it does when the active inventory
mode excludes them); the callback emits exactly that payload. -/
theorem tagmap_fields_amended (ti : UHFTAGInfo) :
    (createTagMap (some ti)).lookup "epc" = some (ti.epc.getD "") ∧
    (ti.tid = none → (createTagMap (some ti)).lookup "tid" = some "") ∧
    (ti.user = none → (createTagMap (some ti)).lookup "user" = some "") ∧
    eventsOf (inventoryCallbackRun (some ti) (.ok ()))
      = [Event.tagRead (createTagMap (some ti))] := by
  refine ⟨rfl, fun h => ?_, fun h => ?_, rfl⟩
  · show some (ti.tid.getD "") = some ""
    rw [h]
    rfl
  · show some (ti.user.getD "") = some ""
    rw [h]
    rfl

/-- Witness for the amended C6 at the all-null tag. -/
theorem tagmap_fields_amended_witness :
    (createTagMap (some tagAllNull)).lookup "tid" = some "" ∧
    (createTagMap (some tagAllNull)).lookup "user" = some "" :=
  ⟨(tagmap_fields_amended tagAllNull).2.1 rfl,
   (tagmap_fields_amended tagAllNull).2.2.1 rfl⟩

/-- Counterexample to claim C9 at a concrete input: a fault thrown while the
registered inventory callback emits a tag-read event is not caught anywhere
in the bridge and propagates uncaught. -/
theorem callback_fault_uncaught :
    inventoryCallbackRun (some tagAllNull) (.throw (Fault.other "react context destroyed"))
        = [Step.uncaughtStep (Fault.other "react context destroyed")] ∧
    (Step.uncaughtStep (Fault.other "react context destroyed")).isUncaught = true :=
  ⟨rfl, rfl⟩

/-- Claim C9 as amended: every `@ReactMethod` adapter operation — `init`
included — catches any fault thrown by the vendor SDK (or the emitter) and
settles its promise with a taxonomy error code or a resolution — never an
uncaught fault; but a fault thrown while emitting a tag-read event from
inside the SDK inventory callback is not caught and propagates out of the
bridge. -/
theorem adapter_fault_translation_amended :
    (∀ (op : OpName) (args : OpArgs) (reader : Option Unit) (hw : HwBehavior),
        traceCaught (runOp op args reader hw) = true) ∧
    (∀ (reader : Option Unit) (hw : HwBehavior),
        traceCaught (initRun reader hw).2 = true) ∧
    (∀ (tagInfo : Option UHFTAGInfo) (f : Fault),
        inventoryCallbackRun tagInfo (.throw f) = [Step.uncaughtStep f]) := by
  refine ⟨fun op args reader hw => ?_, fun reader hw => ?_, fun tagInfo f => rfl⟩
  case refine_2 =>
    rcases hg : hw.getInstanceRes with u | f
    · rcases hi : hw.initRes with (_ | _) | f
      · simp only [initRun, hg, hi]
        rfl
      · simp only [initRun, hg, hi]
        rfl
      · cases f <;> simp only [initRun, hg, hi, initFaultCode, initFaultMsg] <;> rfl
    · cases f <;> simp only [initRun, hg, initFaultCode, initFaultMsg] <;> rfl
  cases reader with
  | none => rw [runOp_none]; rfl
  | some u =>
    cases op with
    | free =>
        rcases h : hw.freeRes with b | f <;> simp only [runOp, freeTrace, h] <;> rfl
    | getVersion =>
        rcases h : hw.getVersionRes with (_ | v) | f <;>
          simp only [runOp, getVersionTrace, h] <;> rfl
    | setPower =>
        rcases h : hw.setPowerRes with b | f <;> simp only [runOp, setPowerTrace, h] <;> rfl
    | getPower =>
        rcases h : hw.getPowerRes with n | f <;> simp only [runOp, getPowerTrace, h] <;> rfl
    | setFrequencyMode =>
        rcases h : hw.setFrequencyModeRes with b | f <;>
          simp only [runOp, setFrequencyModeTrace, h] <;> rfl
    | getFrequencyMode =>
        rcases h : hw.getFrequencyModeRes with n | f <;>
          simp only [runOp, getFrequencyModeTrace, h] <;> rfl
    | startInventory =>
        rcases h1 : hw.setInventoryCallbackRes with u1 | f1 <;>
          rcases h2 : hw.startInventoryTagRes with (_ | _) | f2 <;>
          rcases h3 : hw.emitRes with u3 | f3 <;>
          simp only [runOp, startInventoryTrace, h1, h2, h3] <;> rfl
    | stopInventory =>
        rcases h1 : hw.stopInventoryRes with (_ | _) | f1 <;>
          rcases h2 : hw.emitRes with u2 | f2 <;>
          simp only [runOp, stopInventoryTrace, h1, h2] <;> rfl
    | inventorySingleTag =>
        rcases h : hw.inventorySingleTagRes with (_ | ti) | f <;>
          simp only [runOp, inventorySingleTagTrace, h] <;> rfl
    | readData =>
        rcases h : hw.readDataRes with (_ | d) | f <;>
          simp only [runOp, readDataTrace, h] <;> rfl
    | writeData =>
        rcases h : hw.writeDataRes with b | f <;> simp only [runOp, writeDataTrace, h] <;> rfl
    | writeEPC =>
        rcases h : hw.writeDataToEpcRes with b | f <;>
          simp only [runOp, writeEPCTrace, h] <;> rfl
    | setFilter =>
        rcases h : hw.setFilterRes with b | f <;> simp only [runOp, setFilterTrace, h] <;> rfl
    | lockTag =>
        rcases h : hw.lockMemRes with b | f <;> simp only [runOp, lockTagTrace, h] <;> rfl
    | killTag =>
        rcases h : hw.killTagRes with b | f <;> simp only [runOp, killTagTrace, h] <;> rfl
    | isInventorying =>
        rcases h : hw.isInventoryingRes with b | f <;>
          simp only [runOp, isInventoryingTrace, h] <;> rfl
    | setEPCMode =>
        rcases h : hw.setEPCModeRes with b | f <;> simp only [runOp, setEPCModeTrace, h] <;> rfl
    | setEPCAndTIDMode =>
        rcases h : hw.setEPCAndTIDModeRes with b | f <;>
          simp only [runOp, setEPCAndTIDModeTrace, h] <;> rfl

/-- Helper: one step of `runSys` decomposes into the step's state and events
followed by the run of the tail. -/
theorem runSys_cons (s : Sys) (a : Act) (rest : List Act) :
    runSys s (a :: rest)
      = ((runSys (stepSys s a).1 rest).1,
         (stepSys s a).2 ++ (runSys (stepSys s a).1 rest).2) := by
  rcases hs : stepSys s a with ⟨s1, evs⟩
  rcases hr : runSys s1 rest with ⟨s2, evs2⟩
  simp [runSys, hs, hr]

/-- Helper: the RFID-event filter distributes over concatenation. -/
theorem rfidEvents_append (xs ys : List Event) :
    rfidEvents (xs ++ ys) = rfidEvents xs ++ rfidEvents ys :=
  List.filter_append _ _

/-- Helper: from a state with a null handle and no registered callback, any
stimulus other than an init attempt that obtains the SDK instance keeps the
handle null and the callback unregistered, and delivers no RFID event. -/
theorem stepSys_nullreader (s : Sys) (a : Act) (hr : s.reader = none)
    (hc : s.callbackSet = false)
    (ha : ∀ hw, a = Act.reactInit hw → hw.getInstanceRes.isThrow = true) :
    (stepSys s a).1.reader = none ∧ (stepSys s a).1.callbackSet = false ∧
    rfidEvents (stepSys s a).2 = [] := by
  cases a with
  | reactCall op args hw =>
      have ht : runOp op args none hw = [notInitializedReject] := runOp_none op args hw
      refine ⟨?_, ?_, ?_⟩ <;>
        simp [stepSys, ht, hr, hc, hasRegister, eventsOf, rfidEvents, notInitializedReject]
  | reactInit hw =>
      have hthrow : hw.getInstanceRes.isThrow = true := ha hw rfl
      rcases hg : hw.getInstanceRes with u | f
      · rw [hg] at hthrow
        simp [HwResult.isThrow] at hthrow
      · refine ⟨?_, ?_, ?_⟩ <;>
          simp [stepSys, initRun, hg, hr, hc, eventsOf, rfidEvents]
  | keyDown code ctx =>
      cases hcond : isTriggerKey code && ctx <;>
        simp [stepSys, hcond, hr, hc, rfidEvents, Event.isRfid]
  | keyUp code ctx =>
      cases hcond : isTriggerKey code && ctx <;>
        simp [stepSys, hcond, hr, hc, rfidEvents, Event.isRfid]
  | sdkDeliverTag tagInfo emitRes =>
      refine ⟨?_, ?_, ?_⟩ <;> simp [stepSys, hr, hc, rfidEvents]

/-- Helper: from any state with a null handle and no registered callback, a
run whose init attempts all fail to obtain the SDK instance delivers no RFID
event. -/
theorem rfid_quiet_aux (acts : List Act) (s : Sys) (hr : s.reader = none)
    (hc : s.callbackSet = false)
    (h : ∀ hw, Act.reactInit hw ∈ acts → hw.getInstanceRes.isThrow = true) :
    rfidEvents (runSys s acts).2 = [] := by
  induction acts generalizing s with
  | nil => rfl
  | cons a rest ih =>
      have hrest : ∀ hw, Act.reactInit hw ∈ rest → hw.getInstanceRes.isThrow = true :=
        fun hw hm => h hw (List.mem_cons_of_mem _ hm)
      have ha : ∀ hw, a = Act.reactInit hw → hw.getInstanceRes.isThrow = true :=
        fun hw he => h hw (by rw [← he]; exact List.mem_cons_self a rest)
      obtain ⟨h1, h2, h3⟩ := stepSys_nullreader s a hr hc ha
      rw [runSys_cons]
      show rfidEvents ((stepSys s a).2 ++ (runSys (stepSys s a).1 rest).2) = []
      rw [rfidEvents_append, h3, ih (stepSys s a).1 h1 h2 hrest]
      rfl

/-- Counterexample to claim C5 at a concrete input: pressing a trigger key
from the initial state — before any `init` call whatsoever — delivers the
trigger-press event to listeners. -/
theorem trigger_event_before_init :
    (runSys Sys0 [Act.keyDown 280 true]).2 = [Event.triggerPress] ∧
    (runSys Sys0 [Act.keyDown 280 true]).1.reader = none :=
  ⟨rfl, rfl⟩

/-- Claim C5 as amended: in every reachable execution, the RFID events
(tag-read, inventory-start, inventory-stop) are delivered only after an init
attempt obtained the SDK instance — if every init attempt fails to obtain it,
none of those events is ever delivered; trigger-press and trigger-release,
by contrast, are emitted by the activity's key hook independently of init. -/
theorem rfid_events_require_instance (acts : List Act)
    (h : ∀ hw, Act.reactInit hw ∈ acts → hw.getInstanceRes.isThrow = true) :
    rfidEvents (runSys Sys0 acts).2 = [] :=
  rfid_quiet_aux acts Sys0 rfl rfl h

/-- Witness for the amended C5: a concrete run (trigger press, then a
capability call, with no init attempt at all) delivers no RFID event. -/
theorem rfid_events_require_instance_witness :
    rfidEvents (runSys Sys0 [Act.keyDown 280 true,
        Act.reactCall .isInventorying argsDefault hwAllOk]).2 = [] :=
  rfid_events_require_instance _ (by intro hw hm; simp at hm)
